import Mathlib

/-!
Shallow embedding of the CoreCONF CoAP sensor/actuator server
(`src/main.py`) for checking its natural-language specification.

Modelling conventions:
* CBOR-decodable Python values (dicts, lists, strings, ints, bools, None)
  are modelled by the inductive `Val`; a Python dict is an association
  list in insertion order (CBOR decoder output has unique keys).
* The serialization codec is an external collaborator (spec §1); request
  decoding is a parameter `dec : List Nat → Except String Val` carrying
  the diagnostic message `str(e)` of a decode failure, and notification
  encoding is a parameter `enc : Val → Option (List Nat)`.
* Hardware pin writes and per-observer datagram sends can fail at the
  hardware/transport boundary; those failure points are oracles
  (`HwOracle`, `send_ok`) passed explicitly.
* The single-threaded event loop serializes all mutation (spec §5), so
  handlers are pure state transformers.
-/

namespace CoreConf

/-- A structured value as produced by `cbor.loads` / consumed by
`cbor.dumps` in the Python source: None, bool, int, text string,
array, or map with text keys in insertion order. -/
inductive Val where
  | vNull
  | vBool (b : Bool)
  | vInt (n : Int)
  | vStr (s : String)
  | vList (xs : List Val)
  | vMap (xs : List (String × Val))

/-- Structural equality on `Val`, the model of Python `==`/`!=` on the
decoded values (dict comparison is structural). -/
def Val.beq : Val → Val → Bool
  | .vNull, .vNull => true
  | .vBool a, .vBool b => a == b
  | .vInt a, .vInt b => a == b
  | .vStr a, .vStr b => a == b
  | .vList [], .vList [] => true
  | .vList (x :: xs), .vList (y :: ys) =>
      Val.beq x y && Val.beq (.vList xs) (.vList ys)
  | .vMap [], .vMap [] => true
  | .vMap ((k, x) :: xs), .vMap ((l, y) :: ys) =>
      k == l && Val.beq x y && Val.beq (.vMap xs) (.vMap ys)
  | _, _ => false

theorem Val.beq_refl : ∀ (a : Val), Val.beq a a = true
  | .vNull => by simp [Val.beq]
  | .vBool b => by simp [Val.beq]
  | .vInt n => by simp [Val.beq]
  | .vStr s => by simp [Val.beq]
  | .vList [] => by simp [Val.beq]
  | .vList (x :: xs) => by
      have h1 := Val.beq_refl x
      have h2 := Val.beq_refl (Val.vList xs)
      simp [Val.beq, h1, h2]
  | .vMap [] => by simp [Val.beq]
  | .vMap ((k, x) :: xs) => by
      have h1 := Val.beq_refl x
      have h2 := Val.beq_refl (Val.vMap xs)
      simp [Val.beq, h1, h2]

theorem Val.eq_of_beq : ∀ (a b : Val), Val.beq a b = true → a = b
  | .vNull, .vNull, _ => rfl
  | .vBool a, .vBool b, h => by
      simp [Val.beq] at h; simp [h]
  | .vInt a, .vInt b, h => by
      simp [Val.beq] at h; simp [h]
  | .vStr a, .vStr b, h => by
      simp [Val.beq] at h; simp [h]
  | .vList [], .vList [], _ => rfl
  | .vList (x :: xs), .vList (y :: ys), h => by
      simp only [Val.beq, Bool.and_eq_true] at h
      have h1 := Val.eq_of_beq x y h.1
      have h2 := Val.eq_of_beq (Val.vList xs) (Val.vList ys) h.2
      cases h1
      cases h2
      rfl
  | .vMap [], .vMap [], _ => rfl
  | .vMap ((k, x) :: xs), .vMap ((l, y) :: ys), h => by
      simp only [Val.beq, Bool.and_eq_true, beq_iff_eq] at h
      have h1 := Val.eq_of_beq x y h.1.2
      have h2 := Val.eq_of_beq (Val.vMap xs) (Val.vMap ys) h.2
      cases h1
      cases h2
      cases h.1.1
      rfl
  | .vNull, .vBool _, h | .vNull, .vInt _, h | .vNull, .vStr _, h
  | .vNull, .vList _, h | .vNull, .vMap _, h
  | .vBool _, .vNull, h | .vBool _, .vInt _, h | .vBool _, .vStr _, h
  | .vBool _, .vList _, h | .vBool _, .vMap _, h
  | .vInt _, .vNull, h | .vInt _, .vBool _, h | .vInt _, .vStr _, h
  | .vInt _, .vList _, h | .vInt _, .vMap _, h
  | .vStr _, .vNull, h | .vStr _, .vBool _, h | .vStr _, .vInt _, h
  | .vStr _, .vList _, h | .vStr _, .vMap _, h
  | .vList _, .vNull, h | .vList _, .vBool _, h | .vList _, .vInt _, h
  | .vList _, .vStr _, h | .vList _, .vMap _, h
  | .vMap _, .vNull, h | .vMap _, .vBool _, h | .vMap _, .vInt _, h
  | .vMap _, .vStr _, h | .vMap _, .vList _, h
  | .vList [], .vList (_ :: _), h | .vList (_ :: _), .vList [], h
  | .vMap [], .vMap (_ :: _), h | .vMap (_ :: _), .vMap [], h => by
      simp [Val.beq] at h

instance : DecidableEq Val := fun a b =>
  if h : Val.beq a b = true then isTrue (Val.eq_of_beq a b h)
  else isFalse fun he => h (he ▸ Val.beq_refl a)

/-- Python `dict` lookup on an association list (decoder output has
unique keys, so the first match is the authoritative one). -/
def lookupKey (es : List (String × Val)) (k : String) : Option Val :=
  match es with
  | [] => none
  | (k', v) :: rest => if k' = k then some v else lookupKey rest k

/-- Python `d.get(k, default)`. -/
def getD (es : List (String × Val)) (k : String) (d : Val) : Val :=
  (lookupKey es k).getD d

/-! ## SensorManager (`src/main.py` lines 34-158) -/

/-- The mutable state of `SensorManager`: the cached actuator record
`led_states`, the last value written to each physical LED pin
(`led1`/`led2`/`led3`, the argument of `Pin.value(...)`), and the cached
sensor reading `last_data` (`None` until a sample succeeds). -/
structure SensorMgr where
  led_states : Val
  led1 : Val
  led2 : Val
  led3 : Val
  last_data : Option Val
deriving DecidableEq

/-- Hardware-failure oracle for the three physical pin writes inside
`update_led_states`: a `false` flag means that `Pin.value` call raises
(and, being inside one `try`, aborts the remaining writes). -/
structure HwOracle where
  red_write_ok : Bool
  yellow_write_ok : Bool
  green_write_ok : Bool
deriving DecidableEq

/-- `SensorManager.update_led_states` (lines 80-88). The Python body
assigns `self.led_states = new_states` FIRST and only then attempts the
three physical pin writes with `new_states.get(key, 0)`; any exception
(a failing pin write, or `.get` on a non-dict payload) is caught and
logged, so the function always returns with the cached record already
replaced by `new_states`. -/
def update_led_states (hw : HwOracle) (m : SensorMgr) (new_states : Val) :
    SensorMgr :=
  let m1 := { m with led_states := new_states }
  match new_states with
  | Val.vMap es =>
    if !hw.red_write_ok then m1 else
    let m2 := { m1 with led1 := getD es "redLed" (Val.vInt 0) }
    if !hw.yellow_write_ok then m2 else
    let m3 := { m2 with led2 := getD es "yellowLed" (Val.vInt 0) }
    if !hw.green_write_ok then m3 else
    { m3 with led3 := getD es "greenLed" (Val.vInt 0) }
  | _ => m1

/-- Outcome of the DHT22 read sequence at the start of
`get_sensor_data` (lines 131-136): the sensor object can be `None`
(initialization failed, both fields become `None` without raising), the
reads can succeed with a temperature and a humidity, or
`measure()`/`temperature()`/`humidity()` can raise. -/
inductive DhtResult where
  | absent
  | ok (temperature humidity : Val)
  | fail (msg : String)
deriving DecidableEq

/-- The `SensorReading` dict built by `get_sensor_data`
(lines 146-153), field order as in the source. -/
def mkReading (timestamp : String) (temperature humidity lightLevel binLevel ledStates : Val) : Val :=
  Val.vMap [("timestamp", Val.vStr timestamp),
            ("temperature", temperature),
            ("humidity", humidity),
            ("lightLevel", lightLevel),
            ("binLevel", binLevel),
            ("ledStates", ledStates)]

/-- `SensorManager.get_sensor_data` (lines 128-158). `light` and `bin`
are the returns of `get_light_level` / `get_distance`, which catch
their own hardware errors internally and yield `None` (`vNull`) on an
absent sensor or failed read — so those failures only land in the
corresponding field. A raising DHT read propagates to the outer
`except`, which returns `None` WITHOUT touching `last_data`; otherwise
the fresh reading replaces `last_data` and is returned. -/
def get_sensor_data (dht : DhtResult) (light bin : Val) (timestamp : String)
    (m : SensorMgr) : SensorMgr × Option Val :=
  match dht with
  | .fail _ => (m, none)
  | .absent =>
      let data := mkReading timestamp Val.vNull Val.vNull light bin m.led_states
      ({ m with last_data := some data }, some data)
  | .ok t h =>
      let data := mkReading timestamp t h light bin m.led_states
      ({ m with last_data := some data }, some data)

/-! ## ConfigManager (`src/main.py` lines 199-217) -/

/-- `ConfigManager.config`: the dict `{"sampling_interval": v}` — the
single recognized configuration field. -/
structure Config where
  sampling_interval : Val
deriving DecidableEq

/-- The constructor default `{"sampling_interval": 10}` (line 206). -/
def initial_config : Config := ⟨Val.vInt 10⟩

/-- `ConfigManager.get_config` (lines 209-210), the config as the dict
handed to the codec. -/
def get_config (c : Config) : Val :=
  Val.vMap [("sampling_interval", c.sampling_interval)]

/-- `ConfigManager.update_config` (lines 212-217): copies
`new_config["sampling_interval"]` when that key is present and ignores
every other key. A non-dict argument makes the `in` test raise
`TypeError`, which the internal `except` swallows leaving the config
unchanged — so the operation never fails. -/
def update_config (c : Config) (new_config : Val) : Config :=
  match new_config with
  | Val.vMap es =>
    match lookupKey es "sampling_interval" with
    | some v => { c with sampling_interval := v }
    | none => c
  | _ => c

/-! ## CoreconfManager (`src/main.py` lines 163-194) -/

/-- The static YANG-like model `CoreconfManager.yang_model`
(lines 166-186), transcribed field for field. -/
def yang_model : Val :=
  Val.vMap [
    ("module", Val.vStr "sensor-data"),
    ("namespace", Val.vStr "urn:example:sensor-data"),
    ("container", Val.vStr "sensor-data"),
    ("leaves", Val.vMap [
      ("temperature", Val.vMap [("type", Val.vStr "decimal64"),
        ("description", Val.vStr "Temperature in Celsius")]),
      ("humidity", Val.vMap [("type", Val.vStr "decimal64"),
        ("description", Val.vStr "Humidity in percentage")]),
      ("timestamp", Val.vMap [("type", Val.vStr "string"),
        ("description", Val.vStr "Time of measurement")]),
      ("lightLevel", Val.vMap [("type", Val.vStr "decimal64"),
        ("description", Val.vStr "Light level in lux")]),
      ("binLevel", Val.vMap [("type", Val.vStr "decimal64"),
        ("description", Val.vStr "Bin fill percentage")]),
      ("ledStates", Val.vMap [
        ("type", Val.vStr "container"),
        ("description", Val.vStr "LED states"),
        ("leaves", Val.vMap [
          ("redLed", Val.vMap [("type", Val.vStr "boolean"),
            ("description", Val.vStr "Red LED state")]),
          ("yellowLed", Val.vMap [("type", Val.vStr "boolean"),
            ("description", Val.vStr "Yellow LED state")]),
          ("greenLed", Val.vMap [("type", Val.vStr "boolean"),
            ("description", Val.vStr "Green LED state")])])])])]

/-! ## SensorServer (`src/main.py` lines 241-431) -/

/-- CoAP method of an inbound packet (`coap_macros.COAP_METHOD`). -/
inductive Method where
  | GET
  | POST
  | PUT
  | DELETE
deriving DecidableEq

/-- An inbound request as seen by a handler: the packet fields the
source reads (`method`, `messageid`, `token`, `payload`, the optional
RFC-7641 `observe` attribute) plus the sender address/port the
transport passes alongside. -/
structure Request where
  method : Method
  sender_ip : String
  sender_port : Nat
  messageid : Nat
  token : List Nat
  payload : List Nat
  observe : Option Nat
deriving DecidableEq

/-- One call to `self.server.sendResponse(ip, port, messageid, payload,
code, content_format, token)`. The payload is modelled as the
structured value handed to `cbor.dumps` (the codec is the opaque
external collaborator of spec §1). -/
structure Response where
  dest_ip : String
  dest_port : Nat
  messageid : Nat
  payload : Val
  code : Nat
  content_format : Nat
  token : List Nat
deriving DecidableEq

/-- CoAP 2.05 Content. -/
def COAP_CONTENT : Nat := 0x45

/-- CoAP 2.04 Changed. -/
def COAP_CHANGED : Nat := 0x44

/-- CoAP 5.00 Internal Server Error. -/
def COAP_INTERNAL_ERROR : Nat := 0x50

/-- The response every handler sends back to the requester:
`sendResponse(sender_ip, sender_port, packet.messageid, payload, code,
0, packet.token)`. -/
def mkResponse (req : Request) (payload : Val) (code : Nat) : Response :=
  ⟨req.sender_ip, req.sender_port, req.messageid, payload, code, 0, req.token⟩

/-- The error payload `{"status": "error", "message": str(e)}` built in
the PUT failure branches (lines 358, 398). -/
def error_payload (msg : String) : Val :=
  Val.vMap [("status", Val.vStr "error"), ("message", Val.vStr msg)]

/-- The request-payload decoder `cbor.loads`, opaque per spec §1;
a decode failure carries the exception text `str(e)`. -/
def Dec : Type := List Nat → Except String Val

/-- An entry of `self.observers['leds']`: the `(sender_ip, sender_port,
token)` tuple appended at registration (line 373). -/
structure ObsEntry where
  ip : String
  port : Nat
  token : List Nat
deriving DecidableEq

/-- The registration step of `leds_handler` (lines 370-373): append the
tuple unless it is already in the list. -/
def register_observer (observers : List ObsEntry) (o : ObsEntry) :
    List ObsEntry :=
  if o ∈ observers then observers else observers ++ [o]

/-- `/sensors` handler (lines 277-290). It never inspects
`packet.method`, and when `last_data` is still `None` the `if data:`
guard makes it return without sending anything. -/
def sensor_handler (req : Request) (m : SensorMgr) : Option Response :=
  match m.last_data with
  | some data => some (mkResponse req data COAP_CONTENT)
  | none => none

/-- `/capabilities` handler (lines 293-305): GET only. -/
def capabilities_handler (req : Request) : Option Response :=
  if req.method = Method.GET then
    some (mkResponse req yang_model COAP_CONTENT)
  else none

/-- The static discovery payload of `well_known_handler`
(lines 311-318). -/
def well_known_resources : Val :=
  Val.vMap [("resources", Val.vList [
    Val.vMap [("path", Val.vStr "/sensors"), ("rt", Val.vStr "sensors")],
    Val.vMap [("path", Val.vStr "/capabilities"), ("rt", Val.vStr "capabilities")],
    Val.vMap [("path", Val.vStr "/config"), ("rt", Val.vStr "config")],
    Val.vMap [("path", Val.vStr "/leds"), ("rt", Val.vStr "leds")]])]

/-- `/.well-known/core` handler (lines 308-328): GET only. -/
def well_known_handler (req : Request) : Option Response :=
  if req.method = Method.GET then
    some (mkResponse req well_known_resources COAP_CONTENT)
  else none

/-- `/config` handler (lines 331-360). GET answers 2.05 Content with
the current config. PUT decodes the body; on success it applies
`update_config` and answers 2.04 Changed with
`{"status": "updated", "config": <new config>}`, on a decode failure it
answers 5.00 with `error_payload` (`update_config` itself never raises,
so the decode is the only failure point in the `try`). Other methods
fall through both `if` branches: no response. -/
def config_handler (dec : Dec) (req : Request) (cfg : Config) :
    Config × Option Response :=
  match req.method with
  | Method.GET => (cfg, some (mkResponse req (get_config cfg) COAP_CONTENT))
  | Method.PUT =>
    match dec req.payload with
    | Except.ok new_cfg =>
        let cfg' := update_config cfg new_cfg
        let response_data := Val.vMap [("status", Val.vStr "updated"),
                                       ("config", get_config cfg')]
        (cfg', some (mkResponse req response_data COAP_CHANGED))
    | Except.error e =>
        (cfg, some (mkResponse req (error_payload e) COAP_INTERNAL_ERROR))
  | _ => (cfg, none)

/-- `/leds` handler (lines 363-400). GET first registers the caller as
an observer when the packet carries `observe == 0`, then answers 2.05
Content with the live `led_states`. PUT decodes the body; on success it
applies `update_led_states` and answers 2.04 Changed with
`{"status": "updated", "ledStates": <cached record>}`, on a decode
failure it answers 5.00 with `error_payload` (`update_led_states`
catches its own hardware errors, so the decode is the only failure
point in the `try`). Other methods: no response. -/
def leds_handler (dec : Dec) (hw : HwOracle) (req : Request)
    (observers : List ObsEntry) (m : SensorMgr) :
    List ObsEntry × SensorMgr × Option Response :=
  match req.method with
  | Method.GET =>
    let observers' :=
      if req.observe = some 0 then
        register_observer observers ⟨req.sender_ip, req.sender_port, req.token⟩
      else observers
    (observers', m, some (mkResponse req m.led_states COAP_CONTENT))
  | Method.PUT =>
    match dec req.payload with
    | Except.ok new_led_states =>
        let m' := update_led_states hw m new_led_states
        let response_data := Val.vMap [("status", Val.vStr "updated"),
                                       ("ledStates", m'.led_states)]
        (observers, m', some (mkResponse req response_data COAP_CHANGED))
    | Except.error e =>
        (observers, m, some (mkResponse req (error_payload e) COAP_INTERNAL_ERROR))
  | _ => (observers, m, none)

/-- The server-owned state a request can touch: the `SensorManager`,
the `ConfigManager`, the `/leds` observer list
(`self.observers['leds']`, absent key modelled as the empty list) and
the change-detection snapshot `self.last_led_state`. -/
structure ServerState where
  mgr : SensorMgr
  cfg : Config
  observers : List ObsEntry
  last_led_state : Val
deriving DecidableEq

/-- Endpoint dispatch as registered with
`addIncomingRequestCallback` (lines 404-408): the five registered
paths route to their handlers; any other path has no handler, so the
request is dropped with no response. -/
def dispatch (dec : Dec) (hw : HwOracle) (path : String) (req : Request)
    (st : ServerState) : ServerState × Option Response :=
  if path = "sensors" then (st, sensor_handler req st.mgr)
  else if path = "capabilities" then (st, capabilities_handler req)
  else if path = ".well-known/core" then (st, well_known_handler req)
  else if path = "config" then
    let r := config_handler dec req st.cfg
    ({ st with cfg := r.1 }, r.2)
  else if path = "leds" then
    let r := leds_handler dec hw req st.observers st.mgr
    ({ st with observers := r.1, mgr := r.2.1 }, r.2.2)
  else (st, none)

/-! ## Observer notification (`src/main.py` lines 252-266, 418-431) -/

/-- One attempted push to an observer inside the `notify_observers`
loop: the arguments of the `sendResponse` call (the payload here is the
encoded byte string computed once before the loop) plus whether the
send raised at the transport (`delivered = false`); the exception is
caught inside the loop body, so the loop continues either way. -/
structure PushAttempt where
  ip : String
  port : Nat
  messageid : Nat
  payload_bytes : List Nat
  code : Nat
  token : List Nat
  delivered : Bool
deriving DecidableEq

/-- `SensorServer.notify_observers` (lines 252-266) for the `/leds`
resource: encode the payload ONCE with `cbor.dumps`; on an encode
failure return with no sends; otherwise attempt one `sendResponse` per
registered observer, addressed to that observer's ip/port and carrying
that observer's own token, the shared encoded bytes and code 2.05
Content. `send_ok` is the transport oracle; a `false` send is caught
and the iteration proceeds to the next observer. -/
def notify_observers (enc : Val → Option (List Nat))
    (send_ok : ObsEntry → Bool) (message_id : Nat)
    (observers : List ObsEntry) (payload : Val) : List PushAttempt :=
  match enc payload with
  | none => []
  | some bytes =>
      observers.map fun o =>
        ⟨o.ip, o.port, message_id, bytes, COAP_CONTENT, o.token, send_ok o⟩

/-- The change-detection tail of one `SensorServer.run` loop iteration
(lines 426-430): when the live `led_states` differs structurally from
the snapshot `last_led_state`, call `notify_observers` and then replace
the snapshot with (a copy of) the live state; otherwise do nothing.
`message_id` abstracts `int(utime.time()) & 0xFFFF`. -/
def led_change_step (enc : Val → Option (List Nat))
    (send_ok : ObsEntry → Bool) (message_id : Nat) (st : ServerState) :
    ServerState × List PushAttempt :=
  if st.mgr.led_states = st.last_led_state then (st, [])
  else
    ({ st with last_led_state := st.mgr.led_states },
     notify_observers enc send_ok message_id st.observers st.mgr.led_states)

/-! ## Concrete fixtures for witnesses and counterexamples -/

/-- The all-off actuator record the constructor installs (lines 63-67). -/
def led_off : Val :=
  Val.vMap [("redLed", Val.vBool false), ("yellowLed", Val.vBool false),
            ("greenLed", Val.vBool false)]

/-- An actuator record with the red LED on. -/
def led_red_on : Val :=
  Val.vMap [("redLed", Val.vBool true), ("yellowLed", Val.vBool false),
            ("greenLed", Val.vBool false)]

/-- All three pin writes succeed. -/
def hw_ok : HwOracle := ⟨true, true, true⟩

/-- The first pin write (red) raises, so no pin is written. -/
def hw_fail : HwOracle := ⟨false, false, false⟩

/-- A freshly constructed `SensorManager`: LEDs off, nothing sampled. -/
def mgr0 : SensorMgr := ⟨led_off, Val.vInt 0, Val.vInt 0, Val.vInt 0, none⟩

/-- A freshly started server: default config, no observers, snapshot
equal to the live LED state. -/
def st0 : ServerState := ⟨mgr0, initial_config, [], led_off⟩

/-- A successfully sampled reading. -/
def reading0 : Val :=
  mkReading "2025-01-01 00:00:00" (Val.vInt 21) (Val.vInt 40) (Val.vInt 500)
    (Val.vInt 55) led_off

/-- `mgr0` after one successful sample. -/
def mgr_cached : SensorMgr := { mgr0 with last_data := some reading0 }

/-- `st0` with a cached sensor reading. -/
def st_cached : ServerState := { st0 with mgr := mgr_cached }

/-- A decoder that fails on every body. -/
def dec_fail : Dec := fun _ => Except.error "decode error"

/-- A decoder under which every body decodes to `led_red_on`. -/
def dec_red : Dec := fun _ => Except.ok led_red_on

/-- An encoder that always succeeds with a fixed byte string. -/
def enc1 : Val → Option (List Nat) := fun _ => some [0xBF, 0xFF]

/-- A plain GET on `/sensors`. -/
def req_get_sensors : Request := ⟨Method.GET, "192.168.4.2", 5683, 1, [1], [], none⟩

/-- A PUT on `/sensors` (unsupported per the spec's method table). -/
def req_put_sensors : Request :=
  ⟨Method.PUT, "192.168.4.2", 5683, 2, [2], [0xA1], none⟩

/-- A GET on `/leds` carrying the observe-start marker 0. -/
def req_obs_leds : Request := ⟨Method.GET, "192.168.4.3", 5683, 3, [3], [], some 0⟩

/-- A PUT on `/leds`. -/
def req_put_leds : Request :=
  ⟨Method.PUT, "192.168.4.3", 5683, 4, [4], [0xA3], none⟩

/-- Two registered observers of `/leds`. -/
def obsA : ObsEntry := ⟨"192.168.4.7", 5683, [7]⟩

/-- A second registered observer of `/leds`. -/
def obsB : ObsEntry := ⟨"192.168.4.8", 5683, [8]⟩

/-- A server state whose live LED state differs from the snapshot, with
two observers registered. -/
def st_changed : ServerState :=
  ⟨{ mgr0 with led_states := led_red_on }, initial_config, [obsA, obsB], led_off⟩

/-! ## Helper lemmas -/

/-- `update_led_states` always leaves the cached record equal to its
argument, whatever the pin writes do: the assignment precedes the
writes and exceptions are swallowed. -/
theorem update_led_states_replaces (hw : HwOracle) (m : SensorMgr) (v : Val) :
    (update_led_states hw m v).led_states = v := by
  cases v <;> (simp only [update_led_states]; repeat' first | rfl | split)

/-- Registration is idempotent on the stored list. -/
theorem register_observer_idem (l : List ObsEntry) (o : ObsEntry) :
    register_observer (register_observer l o) o = register_observer l o := by
  unfold register_observer
  by_cases h : o ∈ l
  · simp [h]
  · simp [h]

/-- Registration leaves exactly one entry for a tuple not present
before, and never adds to an existing count. -/
theorem register_observer_count (l : List ObsEntry) (o : ObsEntry) :
    (register_observer l o).count o = max (l.count o) 1 := by
  unfold register_observer
  by_cases h : o ∈ l
  · have hpos : 0 < l.count o := List.count_pos_iff.mpr h
    simp only [h, if_true]
    omega
  · have hz : l.count o = 0 := List.count_eq_zero.mpr h
    simp [h, List.count_append, hz]

/-! ## Claim theorems -/

/-- C3, counterexample: with the DHT sensor present but its read
raising, while the light read returns 500 and the bin read returns 55
(both individual reads succeed), `get_sensor_data` reports the WHOLE
sample failed (`None`) — contradicting the claim that an individual
sensor failure only degrades its own field and that the whole sample is
reported failed only when ALL sensor reads fail. The cached reading is
left unchanged. -/
theorem C3_counterexample :
    (get_sensor_data (DhtResult.fail "DHT22 read error") (Val.vInt 500)
        (Val.vInt 55) "2025-01-01 00:00:01" mgr_cached).2 = none ∧
    (get_sensor_data (DhtResult.fail "DHT22 read error") (Val.vInt 500)
        (Val.vInt 55) "2025-01-01 00:00:01" mgr_cached).1 = mgr_cached :=
  ⟨rfl, rfl⟩

/-- C3 (amended): a failed light-level or bin-level read only lands as
`None` in its own field (their errors are caught inside
`get_light_level`/`get_distance`), and an uninitialized DHT sensor only
degrades temperature and humidity to `None`; but a raising DHT read on
a present sensor fails the WHOLE sample regardless of the other
sensors; whenever the whole sample is reported failed, the cached
reading is retained unchanged. -/
theorem C3_sample_degradation (dht : DhtResult) (light bin : Val)
    (ts : String) (m : SensorMgr) :
    (∀ t h, dht = DhtResult.ok t h →
        get_sensor_data dht light bin ts m =
          ({ m with last_data := some (mkReading ts t h light bin m.led_states) },
           some (mkReading ts t h light bin m.led_states))) ∧
    (dht = DhtResult.absent →
        get_sensor_data dht light bin ts m =
          ({ m with
              last_data := some (mkReading ts Val.vNull Val.vNull light bin m.led_states) },
           some (mkReading ts Val.vNull Val.vNull light bin m.led_states))) ∧
    (∀ e, dht = DhtResult.fail e → get_sensor_data dht light bin ts m = (m, none)) := by
  refine ⟨?_, ?_, ?_⟩
  · intro t h hd; subst hd; rfl
  · intro hd; subst hd; rfl
  · intro e hd; subst hd; rfl

/-- C3, witness: the amended theorem applied at a failing DHT read with
a successful light read, and at an all-successful sample. -/
theorem C3_sample_degradation_witness :
    get_sensor_data (DhtResult.fail "e") (Val.vInt 500) Val.vNull
      "2025-01-01 00:00:01" mgr_cached = (mgr_cached, none) ∧
    get_sensor_data (DhtResult.ok (Val.vInt 21) (Val.vInt 40)) (Val.vInt 500)
      (Val.vInt 55) "2025-01-01 00:00:00" mgr0 =
      ({ mgr0 with last_data := some reading0 }, some reading0) :=
  ⟨(C3_sample_degradation (DhtResult.fail "e") (Val.vInt 500) Val.vNull
      "2025-01-01 00:00:01" mgr_cached).2.2 "e" rfl,
   (C3_sample_degradation (DhtResult.ok (Val.vInt 21) (Val.vInt 40)) (Val.vInt 500)
      (Val.vInt 55) "2025-01-01 00:00:00" mgr0).1 (Val.vInt 21) (Val.vInt 40) rfl⟩

/-- C4: a PUT on `/leds` whose body decodes to `v` leaves the stored
`ActuatorState` exactly equal to `v` (full replacement) — in
particular the stored state does not depend on the prior state at all,
so any field omitted from the payload loses its prior value. -/
theorem C4_leds_put_full_replace (dec : Dec) (hw : HwOracle) (req : Request)
    (st : ServerState) (v : Val)
    (hput : req.method = Method.PUT)
    (hdec : dec req.payload = Except.ok v) :
    (dispatch dec hw "leds" req st).1.mgr.led_states = v ∧
    (∀ st' : ServerState,
       (dispatch dec hw "leds" req st').1.mgr.led_states =
       (dispatch dec hw "leds" req st).1.mgr.led_states) := by
  constructor
  · simp [dispatch, leds_handler, hput, hdec, update_led_states_replaces]
  · intro st'
    simp [dispatch, leds_handler, hput, hdec, update_led_states_replaces]

/-- C4, witness: a PUT decoding to `led_red_on` against the fresh
server stores exactly `led_red_on`. -/
theorem C4_leds_put_full_replace_witness :
    req_put_leds.method = Method.PUT ∧
    dec_red req_put_leds.payload = Except.ok led_red_on ∧
    (dispatch dec_red hw_ok "leds" req_put_leds st0).1.mgr.led_states = led_red_on :=
  ⟨rfl, rfl,
   (C4_leds_put_full_replace dec_red hw_ok req_put_leds st0 led_red_on rfl rfl).1⟩

/-- C6: the code evaluated at the failing input. `update_led_states`
with every pin write raising (so NO physical write succeeds) still
replaces the cached `ActuatorState` with the new value — the record is
assigned before the writes are attempted — while every pin keeps its
old value. The claim (and spec §4.1, which flags this as a documented
deviation of the source) requires the record to change only after all
physical writes succeed. -/
theorem C6_eager_update_evaluated :
    (update_led_states hw_fail mgr0 led_red_on).led_states = led_red_on ∧
    led_red_on ≠ mgr0.led_states ∧
    (update_led_states hw_fail mgr0 led_red_on).led1 = mgr0.led1 ∧
    (update_led_states hw_fail mgr0 led_red_on).led2 = mgr0.led2 ∧
    (update_led_states hw_fail mgr0 led_red_on).led3 = mgr0.led3 := by
  refine ⟨rfl, ?_, rfl, rfl, rfl⟩
  simp [led_red_on, mgr0, led_off]

/-- C7: `update_config` copies the value at the recognized
`sampling_interval` key when present (and `RuntimeConfig` has no other
field, so nothing else changes), leaves the config unchanged when the
mapping holds only unrecognized keys, and is total — a non-mapping
argument also leaves the config unchanged (the `TypeError` is caught),
so the update never fails. -/
theorem C7_config_merge (cfg : Config) (v : Val) :
    (∀ es x, v = Val.vMap es → lookupKey es "sampling_interval" = some x →
        update_config cfg v = { sampling_interval := x }) ∧
    (∀ es, v = Val.vMap es → lookupKey es "sampling_interval" = none →
        update_config cfg v = cfg) ∧
    ((∀ es, v ≠ Val.vMap es) → update_config cfg v = cfg) := by
  refine ⟨?_, ?_, ?_⟩
  · intro es x hv hx; subst hv; simp [update_config, hx]
  · intro es hv hx; subst hv; simp [update_config, hx]
  · intro hne
    cases v
    case vMap es => exact absurd rfl (hne es)
    all_goals rfl

/-- C7, witness: `update({"sampling_interval": 5})` changes the field;
`update({"unknownKey": 1})` leaves the default config unchanged;
`update(7)` (a non-mapping body) also leaves it unchanged. -/
theorem C7_config_merge_witness :
    update_config initial_config (Val.vMap [("sampling_interval", Val.vInt 5)]) =
      { sampling_interval := Val.vInt 5 } ∧
    update_config initial_config (Val.vMap [("unknownKey", Val.vInt 1)]) =
      initial_config ∧
    update_config initial_config (Val.vInt 7) = initial_config :=
  ⟨(C7_config_merge initial_config
      (Val.vMap [("sampling_interval", Val.vInt 5)])).1
      [("sampling_interval", Val.vInt 5)] (Val.vInt 5) rfl rfl,
   (C7_config_merge initial_config (Val.vMap [("unknownKey", Val.vInt 1)])).2.1
      [("unknownKey", Val.vInt 1)] rfl rfl,
   (C7_config_merge initial_config (Val.vInt 7)).2.2 (fun _ => Val.noConfusion)⟩

/-- C10: a GET on `/sensors` arriving while `last_data` is still `None`
is answered with nothing at all — the handler's `if data:` guard skips
the send and the server state is untouched. -/
theorem C10_sensors_unanswered_before_first_sample (dec : Dec) (hw : HwOracle)
    (req : Request) (st : ServerState)
    (_hget : req.method = Method.GET)
    (hnone : st.mgr.last_data = none) :
    (dispatch dec hw "sensors" req st).2 = none ∧
    (dispatch dec hw "sensors" req st).1 = st := by
  constructor <;> simp [dispatch, sensor_handler, hnone]

/-- C10, witness: the fresh server (`last_data = None`) answers a GET
on `/sensors` with no response. -/
theorem C10_sensors_unanswered_witness :
    req_get_sensors.method = Method.GET ∧
    st0.mgr.last_data = none ∧
    (dispatch dec_red hw_ok "sensors" req_get_sensors st0).2 = none :=
  ⟨rfl, rfl,
   (C10_sensors_unanswered_before_first_sample dec_red hw_ok req_get_sensors st0
      rfl rfl).1⟩

/-- C5: a GET on `/leds` carrying `observe == 0` registers the caller's
`(sender_ip, sender_port, token)` tuple idempotently — a repeat of the
same request leaves the observer list unchanged, and the tuple ends up
stored exactly once when it was not stored before (more generally the
count becomes `max count 1`) — while a GET without that marker
registers nothing. -/
theorem C5_observer_registration (dec : Dec) (hw : HwOracle) (req : Request)
    (st : ServerState) (hget : req.method = Method.GET) :
    (req.observe = some 0 →
       (dispatch dec hw "leds" req st).1.observers =
         register_observer st.observers ⟨req.sender_ip, req.sender_port, req.token⟩ ∧
       (dispatch dec hw "leds" req (dispatch dec hw "leds" req st).1).1.observers =
         (dispatch dec hw "leds" req st).1.observers ∧
       (dispatch dec hw "leds" req st).1.observers.count
           ⟨req.sender_ip, req.sender_port, req.token⟩ =
         max (st.observers.count ⟨req.sender_ip, req.sender_port, req.token⟩) 1) ∧
    (req.observe ≠ some 0 →
       (dispatch dec hw "leds" req st).1.observers = st.observers) := by
  constructor
  · intro hobs
    refine ⟨?_, ?_, ?_⟩
    · simp [dispatch, leds_handler, hget, hobs]
    · simp [dispatch, leds_handler, hget, hobs, register_observer_idem]
    · simp [dispatch, leds_handler, hget, hobs, register_observer_count]
  · intro hobs
    simp [dispatch, leds_handler, hget, hobs]

/-- C5, witness: registering the fresh observer twice on the fresh
server stores it exactly once. -/
theorem C5_observer_registration_witness :
    req_obs_leds.method = Method.GET ∧
    req_obs_leds.observe = some 0 ∧
    (dispatch dec_red hw_ok "leds" req_obs_leds
        (dispatch dec_red hw_ok "leds" req_obs_leds st0).1).1.observers =
      (dispatch dec_red hw_ok "leds" req_obs_leds st0).1.observers ∧
    (dispatch dec_red hw_ok "leds" req_obs_leds st0).1.observers.count
        ⟨req_obs_leds.sender_ip, req_obs_leds.sender_port, req_obs_leds.token⟩ = 1 := by
  refine ⟨rfl, rfl,
    ((C5_observer_registration dec_red hw_ok req_obs_leds st0 rfl).1 rfl).2.1, ?_⟩
  have h := ((C5_observer_registration dec_red hw_ok req_obs_leds st0 rfl).1 rfl).2.2
  simpa [st0] using h

/-- C8: two successive PUTs on `/leds` with the identical body yield
the same final `ActuatorState` as the first alone (the second PUT
re-stores the same decoded value), and the two responses are
equivalent: same status code and same payload — whatever the hardware
write oracles do on either call. -/
theorem C8_leds_put_idempotent (dec : Dec) (hw1 hw2 : HwOracle)
    (req1 req2 : Request) (st : ServerState)
    (hm1 : req1.method = Method.PUT) (hm2 : req2.method = Method.PUT)
    (hbody : req2.payload = req1.payload) :
    ((dispatch dec hw2 "leds" req2 (dispatch dec hw1 "leds" req1 st).1).1.mgr.led_states =
       (dispatch dec hw1 "leds" req1 st).1.mgr.led_states) ∧
    (∀ r1 r2, (dispatch dec hw1 "leds" req1 st).2 = some r1 →
       (dispatch dec hw2 "leds" req2 (dispatch dec hw1 "leds" req1 st).1).2 = some r2 →
       r1.code = r2.code ∧ r1.payload = r2.payload) := by
  cases hdec : dec req1.payload with
  | ok v =>
      constructor
      · simp [dispatch, leds_handler, hm1, hm2, hbody, hdec,
              update_led_states_replaces]
      · intro r1 r2 h1 h2
        simp [dispatch, leds_handler, hm1, hm2, hbody, hdec, mkResponse,
              update_led_states_replaces] at h1 h2
        subst h1; subst h2
        simp [update_led_states_replaces]
  | error e =>
      constructor
      · simp [dispatch, leds_handler, hm1, hm2, hbody, hdec]
      · intro r1 r2 h1 h2
        simp [dispatch, leds_handler, hm1, hm2, hbody, hdec, mkResponse] at h1 h2
        subst h1; subst h2
        simp

/-- C8, witness: the idempotence theorem applied to two identical PUTs
decoding to `led_red_on` against the fresh server. -/
theorem C8_leds_put_idempotent_witness :
    req_put_leds.method = Method.PUT ∧
    (dispatch dec_red hw_ok "leds" req_put_leds
        (dispatch dec_red hw_ok "leds" req_put_leds st0).1).1.mgr.led_states =
      (dispatch dec_red hw_ok "leds" req_put_leds st0).1.mgr.led_states :=
  ⟨rfl, (C8_leds_put_idempotent dec_red hw_ok hw_ok req_put_leds req_put_leds st0
      rfl rfl rfl).1⟩

/-- C9, counterexample: a PUT on `/sensors` — an unsupported
(path, method) pair per the spec's table — is NOT dropped: the
`/sensors` handler never inspects `packet.method`, so with a cached
reading present it answers the PUT with the 2.05 Content response,
contradicting the claim that no response at all is sent. -/
theorem C9_counterexample :
    req_put_sensors.method ≠ Method.GET ∧
    (dispatch dec_red hw_ok "sensors" req_put_sensors st_cached).2 =
      some (mkResponse req_put_sensors reading0 COAP_CONTENT) :=
  ⟨fun h => Method.noConfusion h, rfl⟩

/-- C9 (amended): methods other than GET on `/capabilities` and
`/.well-known/core` get no response, and methods other than GET or PUT
on `/config` and `/leds` get no response; but the `/sensors` handler
ignores the method entirely — ANY method on `/sensors` is answered
with the cached reading when one exists, and receives no response
otherwise; unknown paths always get no response. -/
theorem C9_unsupported_method_dispatch (dec : Dec) (hw : HwOracle)
    (req : Request) (st : ServerState) :
    (req.method ≠ Method.GET →
       (dispatch dec hw "capabilities" req st).2 = none ∧
       (dispatch dec hw ".well-known/core" req st).2 = none) ∧
    (req.method ≠ Method.GET → req.method ≠ Method.PUT →
       (dispatch dec hw "config" req st).2 = none ∧
       (dispatch dec hw "leds" req st).2 = none) ∧
    (∀ d, st.mgr.last_data = some d →
       (dispatch dec hw "sensors" req st).2 =
         some (mkResponse req d COAP_CONTENT)) ∧
    (st.mgr.last_data = none → (dispatch dec hw "sensors" req st).2 = none) ∧
    (∀ p, p ≠ "sensors" → p ≠ "capabilities" → p ≠ ".well-known/core" →
       p ≠ "config" → p ≠ "leds" → dispatch dec hw p req st = (st, none)) := by
  refine ⟨?_, ?_, ?_, ?_, ?_⟩
  · intro hng
    constructor <;> simp [dispatch, capabilities_handler, well_known_handler, hng]
  · intro hng hnp
    cases hm : req.method <;> simp_all [dispatch, config_handler, leds_handler]
  · intro d hd
    simp [dispatch, sensor_handler, hd]
  · intro hd
    simp [dispatch, sensor_handler, hd]
  · intro p h1 h2 h3 h4 h5
    simp [dispatch, h1, h2, h3, h4, h5]

/-- C9, witness: the amended theorem applied at a DELETE on
`/capabilities` (no response) and at a PUT on `/sensors` with a cached
reading (answered with the cached reading). -/
theorem C9_unsupported_method_dispatch_witness :
    (dispatch dec_red hw_ok "capabilities"
        ⟨Method.DELETE, "192.168.4.2", 5683, 9, [9], [], none⟩ st_cached).2 = none ∧
    (dispatch dec_red hw_ok "sensors" req_put_sensors st_cached).2 =
      some (mkResponse req_put_sensors reading0 COAP_CONTENT) :=
  ⟨((C9_unsupported_method_dispatch dec_red hw_ok
      ⟨Method.DELETE, "192.168.4.2", 5683, 9, [9], [], none⟩ st_cached).1
      (fun h => Method.noConfusion h)).1,
   (C9_unsupported_method_dispatch dec_red hw_ok req_put_sensors st_cached).2.2.1
      reading0 rfl⟩

/-- C2, counterexample: a GET on `/sensors` — a supported
(path, method) pair — on a server whose `last_data` is still `None`
produces NO response at all, contradicting the claim that every
supported GET sends a success response tagged 2.05 Content. -/
theorem C2_counterexample :
    req_get_sensors.method = Method.GET ∧
    (dispatch dec_red hw_ok "sensors" req_get_sensors st0).2 = none :=
  ⟨rfl, rfl⟩

/-- C2 (amended): for every PUT on `/config` or `/leds`, a decode
failure is answered with exactly one 5.00 Internal Server Error
response whose payload is `{"status": "error", "message": str(e)}`,
and a successful decode with exactly one 2.04 Changed response whose
payload reflects the new state (the update steps themselves never
raise: `update_config` and `update_led_states` swallow their own
errors). Every supported GET on `/config`, `/capabilities`,
`/.well-known/core` and `/leds` is answered with exactly one 2.05
Content response; a GET on `/sensors` is answered with 2.05 Content
when a cached reading exists and with nothing when none does. All
responses carry the caller's token (visible in `mkResponse`). -/
theorem C2_response_discipline (dec : Dec) (hw : HwOracle) (req : Request)
    (st : ServerState) :
    (req.method = Method.PUT →
       (∀ e, dec req.payload = Except.error e →
          (dispatch dec hw "config" req st).2 =
            some (mkResponse req (error_payload e) COAP_INTERNAL_ERROR) ∧
          (dispatch dec hw "leds" req st).2 =
            some (mkResponse req (error_payload e) COAP_INTERNAL_ERROR)) ∧
       (∀ v, dec req.payload = Except.ok v →
          (dispatch dec hw "config" req st).2 =
            some (mkResponse req
              (Val.vMap [("status", Val.vStr "updated"),
                         ("config", get_config (update_config st.cfg v))])
              COAP_CHANGED) ∧
          (dispatch dec hw "leds" req st).2 =
            some (mkResponse req
              (Val.vMap [("status", Val.vStr "updated"), ("ledStates", v)])
              COAP_CHANGED))) ∧
    (req.method = Method.GET →
       (dispatch dec hw "config" req st).2 =
         some (mkResponse req (get_config st.cfg) COAP_CONTENT) ∧
       (dispatch dec hw "capabilities" req st).2 =
         some (mkResponse req yang_model COAP_CONTENT) ∧
       (dispatch dec hw ".well-known/core" req st).2 =
         some (mkResponse req well_known_resources COAP_CONTENT) ∧
       (dispatch dec hw "leds" req st).2 =
         some (mkResponse req st.mgr.led_states COAP_CONTENT) ∧
       (∀ d, st.mgr.last_data = some d →
          (dispatch dec hw "sensors" req st).2 =
            some (mkResponse req d COAP_CONTENT)) ∧
       (st.mgr.last_data = none →
          (dispatch dec hw "sensors" req st).2 = none)) := by
  constructor
  · intro hput
    constructor
    · intro e he
      constructor <;> simp [dispatch, config_handler, leds_handler, hput, he]
    · intro v hv
      constructor
      · simp [dispatch, config_handler, hput, hv]
      · simp [dispatch, leds_handler, hput, hv, update_led_states_replaces]
  · intro hget
    refine ⟨?_, ?_, ?_, ?_, ?_, ?_⟩
    · simp [dispatch, config_handler, hget]
    · simp [dispatch, capabilities_handler, hget]
    · simp [dispatch, well_known_handler, hget]
    · simp [dispatch, leds_handler, hget]
    · intro d hd; simp [dispatch, sensor_handler, hd]
    · intro hd; simp [dispatch, sensor_handler, hd]

/-- C2, witness: the amended theorem applied at a PUT on `/config`
whose body fails to decode (one 5.00 error response) and at a PUT on
`/leds` decoding to `led_red_on` (one 2.04 Changed response echoing the
new state). -/
theorem C2_response_discipline_witness :
    (dispatch dec_fail hw_ok "config" req_put_leds st0).2 =
      some (mkResponse req_put_leds (error_payload "decode error")
        COAP_INTERNAL_ERROR) ∧
    (dispatch dec_red hw_ok "leds" req_put_leds st0).2 =
      some (mkResponse req_put_leds
        (Val.vMap [("status", Val.vStr "updated"), ("ledStates", led_red_on)])
        COAP_CHANGED) :=
  ⟨(((C2_response_discipline dec_fail hw_ok req_put_leds st0).1 rfl).1
      "decode error" rfl).1,
   (((C2_response_discipline dec_red hw_ok req_put_leds st0).1 rfl).2
      led_red_on rfl).2⟩

/-- C1: when one poll iteration finds the live LED state structurally
different from the last-notified snapshot and the state encodes
successfully, then: with N registered observers exactly N push
attempts are made; each attempt is addressed to its observer's ip/port
and carries that observer's own token, the shared once-encoded payload
bytes, and code 2.05 Content; the attempted fan-out is the same
whatever the per-observer transport oracle does (a failed send is
caught in the loop body, so it never prevents the remaining sends);
and the snapshot is replaced by the new state in the same step, after
the whole observer set was attempted. -/
theorem C1_notification_fanout (enc : Val → Option (List Nat))
    (send_ok : ObsEntry → Bool) (mid : Nat) (st : ServerState)
    (bytes : List Nat)
    (hchange : st.mgr.led_states ≠ st.last_led_state)
    (henc : enc st.mgr.led_states = some bytes) :
    ((led_change_step enc send_ok mid st).2.length = st.observers.length) ∧
    ((led_change_step enc send_ok mid st).2 =
       st.observers.map fun o =>
         ⟨o.ip, o.port, mid, bytes, COAP_CONTENT, o.token, send_ok o⟩) ∧
    (∀ a ∈ (led_change_step enc send_ok mid st).2,
        a.payload_bytes = bytes ∧ a.code = COAP_CONTENT) ∧
    (∀ send_fail : ObsEntry → Bool,
        (led_change_step enc send_fail mid st).2.map
            (fun a => { a with delivered := true }) =
          (led_change_step enc send_ok mid st).2.map
            (fun a => { a with delivered := true })) ∧
    ((led_change_step enc send_ok mid st).1 =
       { st with last_led_state := st.mgr.led_states }) := by
  refine ⟨?_, ?_, ?_, ?_, ?_⟩
  · simp [led_change_step, hchange, notify_observers, henc]
  · simp [led_change_step, hchange, notify_observers, henc]
  · intro a ha
    simp [led_change_step, hchange, notify_observers, henc] at ha
    obtain ⟨o, -, rfl⟩ := ha
    exact ⟨rfl, rfl⟩
  · intro send_fail
    simp [led_change_step, hchange, notify_observers, henc]
  · simp [led_change_step, hchange]

/-- C1, witness: the fan-out theorem applied at a state whose red LED
just turned on, with two registered observers and a transport that
fails for the first observer: both observers are still attempted, each
with its own token and the shared bytes, and the snapshot becomes the
new state. -/
theorem C1_notification_fanout_witness :
    st_changed.mgr.led_states ≠ st_changed.last_led_state ∧
    (led_change_step enc1 (fun o => o ≠ obsA) 5 st_changed).2 =
      [⟨obsA.ip, obsA.port, 5, [0xBF, 0xFF], COAP_CONTENT, obsA.token, false⟩,
       ⟨obsB.ip, obsB.port, 5, [0xBF, 0xFF], COAP_CONTENT, obsB.token, true⟩] ∧
    (led_change_step enc1 (fun o => o ≠ obsA) 5 st_changed).1.last_led_state =
      led_red_on := by
  have hne : st_changed.mgr.led_states ≠ st_changed.last_led_state := by
    simp [st_changed, mgr0, led_red_on, led_off]
  have h := C1_notification_fanout enc1 (fun o => o ≠ obsA) 5 st_changed
    [0xBF, 0xFF] hne rfl
  refine ⟨hne, ?_, ?_⟩
  · rw [h.2.1]
    simp [st_changed, obsA, obsB]
  · rw [h.2.2.2.2]
    rfl

end CoreConf
